import Mathlib

/-!
Shallow embedding of the Engine Process Supervisor and Event Reconciliation
core of leek-manager (`app/core/engine.py`, class `EngineManager`), together
with the supporting data model (`app/models/position.py`, `app/models/order.py`,
`app/models/risk_log.py`, `app/models/balance_transaction.py`).

Conventions of the embedding:
* Python `Decimal` values are modelled as `ℚ`.
* Python `dict` objects are modelled as association lists with unique keys.
* A payload key that may be absent is modelled as an `Option` field
  (`Option.none` = key missing); `data.get(k, d)` is `field.getD d` and
  `'k' in data` is `field.isSome`.
* Python truthiness of an optional numeric/string payload value is modelled
  by `truthyQ` / `truthyInt` / `truthyStr` (absent, zero and empty are falsy).
* `datetime` values are modelled as rational timestamps; `datetime.now()` is
  an explicit `now` parameter, `datetime.fromtimestamp(t / 1000)` is `t / 1000`.
* The SQLAlchemy session is modelled by explicit stores (lists of rows);
  mutating a fetched row and committing is modelled by replacing the first
  matching row of the store.
-/

/-- Association list standing in for a Python `dict` with string keys. -/
abbrev StrMap (α : Type) := List (String × α)

/-- Sum of the values of a dict, as in `sum(Decimal(v) for v in m.values())`. -/
def StrMap.valuesSum (m : StrMap ℚ) : ℚ := (m.map Prod.snd).sum

/-- `m[k] = v` on a Python dict: replace the value when the key is present,
append the pair otherwise. -/
def StrMap.setKey (m : StrMap α) (k : String) (v : α) : StrMap α :=
  if m.any (fun p => p.fst == k) then
    m.map (fun p => if p.fst == k then (k, v) else p)
  else m ++ [(k, v)]

/-- Python truthiness of an optional numeric value (`None` and `0` are falsy). -/
def truthyQ : Option ℚ → Bool
  | Option.some v => v != 0
  | Option.none => false

/-- Python truthiness of an optional integer value (`None` and `0` are falsy). -/
def truthyInt : Option Int → Bool
  | Option.some v => v != 0
  | Option.none => false

/-- Python truthiness of an optional string (`None` and `""` are falsy). -/
def truthyStr : Option String → Bool
  | Option.some s => s != ""
  | Option.none => false

/-- Replace the first element satisfying `p` (the row returned by
`query(...).first()` is mutated in place and committed). -/
def updateFirst (p : α → Bool) (f : α → α) : List α → List α
  | [] => []
  | x :: rest => if p x then f x :: rest else x :: updateFirst p f rest

/-- One entry of a position's `virtual_positions` JSON list; the reconciler
reads `signal_id`, `policy_id`, `pnl` and `sz` from it. -/
structure VirtualPosition where
  signal_id : Option Int := Option.none
  policy_id : Option Int := Option.none
  pnl : ℚ := 0
  sz : ℚ := 0
deriving Repr, DecidableEq

/-- The `positions` table row (`app/models/position.py`), restricted to the
columns the reconciler reads or writes. Note the model has NO
`virtual_positions` column (the only other mention of that name in the
repository is a Pydantic response schema), which drives the `TypeError` /
`AttributeError` behaviour modelled below. -/
structure Position where
  project_id : Int
  id : Int
  strategy_id : Int
  strategy_instance_id : String
  symbol : String
  quote_currency : String
  ins_type : String
  asset_type : String
  side : String
  cost_price : ℚ
  amount : ℚ
  ratio : ℚ
  max_sz : ℚ
  max_amount : ℚ
  executor_id : Option String
  pnl : ℚ
  fee : ℚ
  friction : ℚ
  leverage : ℚ
  open_time : ℚ
  sz : ℚ
  executor_sz : StrMap ℚ
  is_closed : Bool
  total_amount : ℚ
  total_sz : ℚ
  close_price : Option ℚ
  current_price : Option ℚ
  close_time : Option ℚ
deriving Repr, DecidableEq

/-- An ORM `Position` instance as it lives inside one handler invocation:
the mapped columns (`row`) plus the plain Python attribute
`virtual_positions`, which exists only when `update_position` set it
(`engine.py:271-272`) because the model has no such column. `Option.none`
means the attribute was never set, so reading it raises `AttributeError`. -/
structure LoadedPosition where
  row : Position
  virtual_positions : Option (List VirtualPosition)
deriving Repr, DecidableEq

/-- The payload of a `position-update` event (`event.data` in
`handle_position_update`): every key except `position_id` may be absent. -/
structure PositionData where
  position_id : Int
  strategy_id : Option Int := Option.none
  strategy_instance_id : Option String := Option.none
  symbol : Option String := Option.none
  quote_currency : Option String := Option.none
  ins_type : Option String := Option.none
  asset_type : Option String := Option.none
  side : Option String := Option.none
  cost_price : Option ℚ := Option.none
  amount : Option ℚ := Option.none
  ratio : Option ℚ := Option.none
  sz : Option ℚ := Option.none
  executor_id : Option String := Option.none
  pnl : Option ℚ := Option.none
  fee : Option ℚ := Option.none
  friction : Option ℚ := Option.none
  leverage : Option ℚ := Option.none
  open_time : Option ℚ := Option.none
  executor_sz : Option (StrMap ℚ) := Option.none
  total_amount : Option ℚ := Option.none
  total_sz : Option ℚ := Option.none
  virtual_positions : Option (List VirtualPosition) := Option.none
  close_price : Option ℚ := Option.none
  current_price : Option ℚ := Option.none
deriving Repr, DecidableEq

/-- `sz = 0; if executor_sz: sz = sum(Decimal(v) for v in executor_sz.values())`
where `executor_sz = position_data.get('executor_sz', dict())`. -/
def szFromExecutorSz (eszOpt : Option (StrMap ℚ)) : ℚ :=
  let esz := eszOpt.getD []
  if esz.isEmpty then 0 else StrMap.valuesSum esz

/-- `vsz = 0; if vpos: vsz = sum(Decimal(vp.get("sz", 0)) for vp in vpos)`
where `vpos = position_data.get('virtual_positions', [])`. -/
def vszFromVirtualPositions (vposOpt : Option (List VirtualPosition)) : ℚ :=
  let vpos := vposOpt.getD []
  if vpos.isEmpty then 0 else (vpos.map VirtualPosition.sz).sum

/-- `EngineManager.convert_position`: the source calls
`Position(..., virtual_positions=position_data.get('virtual_positions', []),
...)`, but `virtual_positions` is not a mapped column and `BaseModel`
inherits the default declarative constructor, which raises
`TypeError: 'virtual_positions' is an invalid keyword argument` — so the
conversion never produces a row, whatever the payload. Modelled as
`Option.none` (= the exception propagating); the field computations of the
dead path (`sz` from `executor_sz`, the closed flag, the running maxima
seeded from `sz`/`amount`) are unreachable. -/
def convert_position (now : ℚ) (project_id : Int) (d : PositionData) :
    Option Position :=
  Option.none

/-- `EngineManager.update_position`: sparse update of an existing open row —
only the keys present in the payload are copied, then `sz`, the running
maxima and the closed flag are recomputed from the payload. The
`existing_position.virtual_positions = ...` assignment (`engine.py:271-272`)
sets a plain instance attribute (no such column exists), recorded in the
`virtual_positions` field of the returned `LoadedPosition`: it is set
exactly when the payload carries the key. -/
def update_position (now : ℚ) (ex : Position) (d : PositionData) : LoadedPosition :=
  let p1 : Position := { ex with
    amount := if d.amount.isSome then d.amount.getD 0 else ex.amount
    ratio := if d.ratio.isSome then d.ratio.getD 0 else ex.ratio
    pnl := if d.pnl.isSome then d.pnl.getD 0 else ex.pnl
    fee := if d.fee.isSome then d.fee.getD 0 else ex.fee
    friction := if d.friction.isSome then d.friction.getD 0 else ex.friction
    cost_price := if d.cost_price.isSome then d.cost_price.getD 0 else ex.cost_price
    close_price := if d.close_price.isSome then
        (if truthyQ d.close_price then d.close_price else Option.none)
      else ex.close_price
    total_amount := if d.total_amount.isSome then d.total_amount.getD 0 else ex.total_amount
    total_sz := if d.total_sz.isSome then d.total_sz.getD 0 else ex.total_sz
    executor_sz := if d.executor_sz.isSome then d.executor_sz.getD [] else ex.executor_sz
    current_price := if d.current_price.isSome then
        (if truthyQ d.current_price then d.current_price else Option.none)
      else ex.current_price }
  let sz := szFromExecutorSz d.executor_sz
  let p2 : Position := { p1 with
    sz := sz
    max_sz := max p1.max_sz sz
    max_amount := max p1.max_amount (d.amount.getD 0) }
  let vsz := vszFromVirtualPositions d.virtual_positions
  let row : Position :=
    if sz ≤ 0 ∧ vsz ≤ 0 then
      { p2 with is_closed := true, close_time := Option.some now }
    else p2
  { row := row, virtual_positions := d.virtual_positions }

/-- The `risk_logs` table row (`app/models/risk_log.py`), restricted to the
columns `update_risk_log_with_virtual_positions` reads or writes; `extra_info`
maps a position id (rendered as a string) to its reported pnl. -/
structure RiskLog where
  id : Int
  project_id : Int
  risk_type : String
  signal_id : Option Int
  risk_policy_id : Option Int
  pnl : Option ℚ
  extra_info : Option (StrMap ℚ)
deriving Repr, DecidableEq

/-- Python truthiness of an optional dict (`None` and the empty dict are
falsy). -/
def truthyDict : Option (StrMap ℚ) → Bool
  | Option.some m => !m.isEmpty
  | Option.none => false

/-- Durable effect of `db.commit()` on one risk-log row, given its loaded
state and its in-memory state at commit time. `extra_info` is a plain `JSON`
column with no mutation tracking (no `MutableDict` / `flag_modified` in the
repository): when the loaded value was a non-empty dict,
`risk_log.extra_info = (risk_log.extra_info or {})` (`engine.py:316`)
reassigns the very same object and the later in-place key writes are
invisible to the session's change detection, so the column is omitted from
the UPDATE and keeps its loaded value; when the loaded value was falsy
(NULL or empty) the `or` produced a fresh dict, which is detected and
written. Every other touched column (in particular the numeric `pnl`)
persists its in-memory value. -/
def commitRiskLog (loaded mem : RiskLog) : RiskLog :=
  { mem with
    extra_info := if truthyDict loaded.extra_info then loaded.extra_info
      else mem.extra_info }

/-- Filter of the risk-log query: project, `risk_type == 'signal'`, signal id
and policy id all match. -/
def riskLogMatches (project_id sid pid : Int) (rl : RiskLog) : Bool :=
  rl.project_id == project_id && rl.risk_type == "signal" &&
    rl.signal_id == Option.some sid && rl.risk_policy_id == Option.some pid

/-- One iteration of the loop in
`EngineManager.update_risk_log_with_virtual_positions`, acting on the
IN-MEMORY risk-log objects of the open session: skip zero pnl and falsy ids,
then back-fill `extra_info[str(position.id)] = pnl` and recompute the
aggregate pnl as the sum over all `extra_info` values on the first matching
RiskLog (no-op when none matches). Whether the `extra_info` write survives
`db.commit()` is decided separately by `commitRiskLog`. -/
def applyVirtualPosition (project_id posId : Int) (logs : List RiskLog)
    (vp : VirtualPosition) : List RiskLog :=
  let pnl := vp.pnl
  if pnl == 0 then logs
  else if !(truthyInt vp.signal_id) || !(truthyInt vp.policy_id) then logs
  else
    let sid := vp.signal_id.getD 0
    let pid := vp.policy_id.getD 0
    if (logs.find? (riskLogMatches project_id sid pid)).isSome then
      updateFirst (riskLogMatches project_id sid pid)
        (fun rl =>
          let info := (rl.extra_info.getD []).setKey (toString posId) pnl
          { rl with extra_info := Option.some info,
                    pnl := Option.some (StrMap.valuesSum info) })
        logs
    else logs

/-- `EngineManager.update_risk_log_with_virtual_positions`. Its first line
(`engine.py:293`) reads `position.virtual_positions`; on an instance whose
attribute was never set (the model has no such column and the payload lacked
the key) this raises `AttributeError`, aborting the whole event before the
handler's commit — modelled as `Option.none`. A falsy or empty list returns
with the in-memory logs untouched. -/
def update_risk_log_with_virtual_positions (project_id : Int)
    (position : LoadedPosition) (logs : List RiskLog) : Option (List RiskLog) :=
  match position.virtual_positions with
  | Option.none => Option.none
  | Option.some vpos =>
    if vpos.isEmpty then Option.some logs
    else Option.some (vpos.foldl (applyVirtualPosition project_id position.row.id) logs)

/-- Filter of the position query: `project_id` and `id` both match. -/
def positionKeyMatches (project_id posId : Int) (p : Position) : Bool :=
  p.project_id == project_id && p.id == posId

/-- `query(Position).filter(project_id, id).first()`. -/
def findPosition (ps : List Position) (project_id posId : Int) : Option Position :=
  ps.find? (positionKeyMatches project_id posId)

/-- `EngineManager.handle_position_update`, as a transformer of the durable
stores; `Option.none` models an exception escaping the handler, in which
case the session is closed uncommitted (`db_connect` only calls
`db.close()`; `autoflush=False`), so every pending mutation is discarded and
the stores are unchanged. Paths: row present and closed → clean early return
before any mutation; row present and open → `update_position`, then the
risk-log back-fill, which raises `AttributeError` when the payload carried
no `virtual_positions` key, else `db.commit()` persists the position columns
and the risk-log rows through `commitRiskLog`; row absent →
`convert_position` raises `TypeError` before `db.add`, so nothing is ever
inserted. -/
def handle_position_update (now : ℚ) (project_id : Int) (d : PositionData)
    (positions : List Position) (riskLogs : List RiskLog) :
    Option (List Position × List RiskLog) :=
  match findPosition positions project_id d.position_id with
  | Option.some existing_position =>
    if existing_position.is_closed then Option.some (positions, riskLogs)
    else
      let updated := update_position now existing_position d
      match update_risk_log_with_virtual_positions project_id updated riskLogs with
      | Option.none => Option.none
      | Option.some memLogs =>
        Option.some
          (updateFirst (positionKeyMatches project_id d.position_id)
            (fun _ => updated.row) positions,
           List.zipWith commitRiskLog riskLogs memLogs)
  | Option.none =>
    match convert_position now project_id d with
    | Option.none => Option.none
    | Option.some new_position => Option.some (positions ++ [new_position], riskLogs)

/-- The `orders` table row (`app/models/order.py`), with the columns set by
`EngineManager.convert_order`. -/
structure Order where
  id : Int
  position_id : Option Int
  strategy_id : Int
  strategy_instant_id : String
  project_id : Int
  signal_id : Int
  exec_order_id : Option Int
  order_status : String
  order_time : ℚ
  ratio : ℚ
  symbol : String
  quote_currency : String
  ins_type : Int
  asset_type : String
  side : String
  is_open : Bool
  is_fake : Bool
  order_amount : ℚ
  order_price : ℚ
  order_type : String
  settle_amount : Option ℚ
  execution_price : Option ℚ
  sz : Option ℚ
  sz_value : Option ℚ
  fee : Option ℚ
  pnl : Option ℚ
  unrealized_pnl : Option ℚ
  finish_time : Option ℚ
  friction : ℚ
  leverage : ℚ
  executor_id : Option Int
  trade_mode : Option String
  market_order_id : Option String
deriving Repr, DecidableEq

/-- One element of the `event.data` list consumed by
`EngineManager.convert_order`; absent keys are `Option.none`. -/
structure OrderData where
  order_id : Option Int := Option.none
  position_id : Option Int := Option.none
  strategy_id : Int := 0
  strategy_instant_id : Option String := Option.none
  signal_id : Int := 0
  exec_order_id : Option Int := Option.none
  order_status : Option String := Option.none
  order_time : Option ℚ := Option.none
  ratio : Option ℚ := Option.none
  symbol : Option String := Option.none
  quote_currency : Option String := Option.none
  ins_type : Option Int := Option.none
  asset_type : Option String := Option.none
  side : Option String := Option.none
  is_open : Option Bool := Option.none
  is_fake : Option Bool := Option.none
  order_amount : Option ℚ := Option.none
  order_price : Option ℚ := Option.none
  order_type : Option String := Option.none
  settle_amount : Option ℚ := Option.none
  execution_price : Option ℚ := Option.none
  sz : Option ℚ := Option.none
  sz_value : Option ℚ := Option.none
  fee : Option ℚ := Option.none
  pnl : Option ℚ := Option.none
  unrealized_pnl : Option ℚ := Option.none
  finish_time : Option ℚ := Option.none
  friction : Option ℚ := Option.none
  leverage : Option ℚ := Option.none
  executor_id : Option Int := Option.none
  trade_mode : Option String := Option.none
  market_order_id : Option String := Option.none
deriving Repr, DecidableEq

/-- `EngineManager.convert_order` applied to a single payload entry
(`strategy_id` and `signal_id` have no defaults in the source, so they are
required fields of the payload model). -/
def convertOrderOne (now : ℚ) (project_id : Int) (d : OrderData) : Order :=
  { id := d.order_id.getD 0
    position_id := if truthyInt d.position_id then d.position_id else Option.none
    strategy_id := d.strategy_id
    strategy_instant_id := d.strategy_instant_id.getD ""
    project_id := project_id
    signal_id := d.signal_id
    exec_order_id := if truthyInt d.exec_order_id then d.exec_order_id else Option.none
    order_status := d.order_status.getD ""
    order_time := if truthyQ d.order_time then d.order_time.getD 0 / 1000 else now
    ratio := d.ratio.getD 0
    symbol := d.symbol.getD ""
    quote_currency := d.quote_currency.getD ""
    ins_type := d.ins_type.getD 0
    asset_type := d.asset_type.getD ""
    side := d.side.getD ""
    is_open := d.is_open.getD false
    is_fake := d.is_fake.getD false
    order_amount := d.order_amount.getD 0
    order_price := d.order_price.getD 0
    order_type := d.order_type.getD ""
    settle_amount := if truthyQ d.settle_amount then d.settle_amount else Option.none
    execution_price := if truthyQ d.execution_price then d.execution_price else Option.none
    sz := if truthyQ d.sz then d.sz else Option.none
    sz_value := if truthyQ d.sz_value then d.sz_value else Option.none
    fee := if truthyQ d.fee then d.fee else Option.none
    pnl := if truthyQ d.pnl then d.pnl else Option.none
    unrealized_pnl := if truthyQ d.unrealized_pnl then d.unrealized_pnl else Option.none
    finish_time := if truthyQ d.finish_time then Option.some (d.finish_time.getD 0 / 1000)
      else Option.none
    friction := d.friction.getD 0
    leverage := d.leverage.getD 1
    executor_id := if truthyInt d.executor_id then d.executor_id else Option.none
    trade_mode := if truthyStr d.trade_mode then d.trade_mode else Option.none
    market_order_id := if truthyStr d.market_order_id then d.market_order_id
      else Option.none }

/-- `EngineManager.convert_order`: map the conversion over `event.data`. -/
def convert_order (now : ℚ) (project_id : Int) (ds : List OrderData) : List Order :=
  ds.map (convertOrderOne now project_id)

/-- `EngineManager.handle_order_created`: insert every converted order. -/
def handle_order_created (now : ℚ) (project_id : Int) (ds : List OrderData)
    (store : List Order) : List Order :=
  store ++ convert_order now project_id ds

/-- `EngineManager.handle_order_updated`: wrap the single payload in a list,
convert it, and for each converted order overwrite the columns of the row
with the same id when one exists; when no row matches, nothing happens (the
`if existing_order:` statement has no `else` branch). -/
def handle_order_updated (now : ℚ) (project_id : Int) (d : OrderData)
    (store : List Order) : List Order :=
  let orders := convert_order now project_id [d]
  orders.foldl
    (fun st order =>
      if (st.find? (fun ex => ex.id == order.id)).isSome then
        updateFirst (fun ex => ex.id == order.id) (fun _ => order) st
      else st)
    store

/-- One entry of an execution order's `execution_assets` JSON list; the
conversion reads `is_open`, `amount` and `ratio` from it. -/
structure ExecAsset where
  is_open : Bool := false
  amount : Option ℚ := Option.none
  ratio : Option ℚ := Option.none
deriving Repr, DecidableEq

/-- The `execution_orders` table row (`app/models/order.py`), with the columns
set by `EngineManager.convert_exec_order`. -/
structure ExecutionOrder where
  id : Int
  project_id : Int
  signal_id : String
  strategy_id : Int
  strategy_instant_id : String
  target_executor_id : String
  execution_assets : List ExecAsset
  open_amount : ℚ
  open_ratio : ℚ
  leverage : Option ℚ
  order_type : Int
  trade_type : Int
  trade_mode : String
  created_time : ℚ
  actual_ratio : Option ℚ
  actual_amount : Option ℚ
  actual_pnl : Option ℚ
  extra : List (String × String)
deriving Repr, DecidableEq

/-- The payload of an execution-order event. `context_id` is modelled as
required because `handle_exec_order_updated` reads it with no default. -/
structure ExecOrderData where
  context_id : Int
  signal_id : Option String := Option.none
  strategy_id : Option Int := Option.none
  strategy_instant_id : Option String := Option.none
  target_executor_id : Option String := Option.none
  execution_assets : List ExecAsset := []
  leverage : Option ℚ := Option.none
  order_type : Option Int := Option.none
  trade_type : Option Int := Option.none
  trade_mode : Option String := Option.none
  created_time : Option ℚ := Option.none
  actual_ratio : Option ℚ := Option.none
  actual_amount : Option ℚ := Option.none
  actual_pnl : Option ℚ := Option.none
  extra : List (String × String) := []
deriving Repr, DecidableEq

/-- One iteration of the accumulation loop of `EngineManager.convert_exec_order`:
for an asset whose `is_open` is truthy, add `amount` to the first component
when it is truthy and `ratio` to the second when it is truthy. -/
def openTotalsStep (acc : ℚ × ℚ) (asset : ExecAsset) : ℚ × ℚ :=
  if asset.is_open then
    let acc1 := if truthyQ asset.amount then (acc.1 + asset.amount.getD 0, acc.2) else acc
    if truthyQ asset.ratio then (acc1.1, acc1.2 + asset.ratio.getD 0) else acc1
  else acc

/-- The accumulation loop of `EngineManager.convert_exec_order`, computing
`open_amount` and `open_ratio` from zero. -/
def openTotals (assets : List ExecAsset) : ℚ × ℚ :=
  assets.foldl openTotalsStep (0, 0)

/-- `EngineManager.convert_exec_order`. -/
def convert_exec_order (now : ℚ) (project_id : Int) (d : ExecOrderData) : ExecutionOrder :=
  let totals := openTotals d.execution_assets
  { id := d.context_id
    project_id := project_id
    signal_id := d.signal_id.getD ""
    strategy_id := d.strategy_id.getD 0
    strategy_instant_id := d.strategy_instant_id.getD ""
    target_executor_id := d.target_executor_id.getD ""
    execution_assets := d.execution_assets
    open_amount := totals.1
    open_ratio := totals.2
    leverage := if truthyQ d.leverage then d.leverage else Option.none
    order_type := d.order_type.getD 0
    trade_type := d.trade_type.getD 0
    trade_mode := d.trade_mode.getD ""
    created_time := if truthyQ d.created_time then d.created_time.getD 0 / 1000 else now
    actual_ratio := if truthyQ d.actual_ratio then d.actual_ratio else Option.none
    actual_amount := if truthyQ d.actual_amount then d.actual_amount else Option.none
    actual_pnl := if truthyQ d.actual_pnl then d.actual_pnl else Option.none
    extra := d.extra }

/-- `EngineManager.handle_exec_order_created`: convert and insert. -/
def handle_exec_order_created (now : ℚ) (project_id : Int) (d : ExecOrderData)
    (store : List ExecutionOrder) : List ExecutionOrder :=
  store ++ [convert_exec_order now project_id d]

/-- `EngineManager.handle_exec_order_updated`: when a row with the event's
`context_id` exists, overwrite its actual fields, asset list and extra and
commit; when none exists, nothing happens (the `if execution_info:` statement
has no `else` branch). -/
def handle_exec_order_updated (project_id : Int) (d : ExecOrderData)
    (store : List ExecutionOrder) : List ExecutionOrder :=
  if (store.find? (fun x => x.id == d.context_id)).isSome then
    updateFirst (fun x => x.id == d.context_id)
      (fun x => { x with
        actual_ratio := d.actual_ratio
        actual_amount := d.actual_amount
        actual_pnl := d.actual_pnl
        execution_assets := d.execution_assets
        extra := d.extra })
      store
  else store

/-- A loosely typed worker-side payload value, as received by
`handle_transaction` for its numeric fields. -/
inductive PyVal where
  | vnone
  | vnum (q : ℚ)
  | vstr (s : String)
deriving Repr, DecidableEq

/-- Numeric value of one character, when it is a digit. -/
def digitVal (c : Char) : Option Nat :=
  if 48 ≤ c.toNat ∧ c.toNat ≤ 57 then Option.some (c.toNat - 48) else Option.none

/-- Read a run of characters as a base-10 natural number; fails on any
non-digit. An empty run reads as 0 (callers rule out the all-empty case). -/
def digitsToNat (acc : Nat) : List Char → Option Nat
  | [] => Option.some acc
  | c :: rest =>
    match digitVal c with
    | Option.some dv => digitsToNat (acc * 10 + dv) rest
    | Option.none => Option.none

/-- Combine sign, integer part and fractional part into a rational; fails when
both parts are empty or a non-digit occurs. -/
def decimalOfParts (neg : Bool) (intPart fracPart : List Char) : Option ℚ :=
  if intPart.isEmpty ∧ fracPart.isEmpty then Option.none
  else
    match digitsToNat 0 intPart, digitsToNat 0 fracPart with
    | Option.some ip, Option.some fp =>
      let mag : ℚ := (ip : ℚ) + (fp : ℚ) / ((10 : ℚ) ^ fracPart.length)
      Option.some (if neg then -mag else mag)
    | _, _ => Option.none

/-- `Decimal(s)` on a plain decimal string: optional sign, digits, at most one
point; anything else (such as `"abc"`) raises `InvalidOperation`, modelled as
`Option.none`. (Exponent forms accepted by `Decimal` are not needed by any
claim and are not modelled.) -/
def decimalOfString (s : String) : Option ℚ :=
  let signed : Bool × List Char :=
    match s.toList with
    | '-' :: rest => (true, rest)
    | '+' :: rest => (false, rest)
    | rest => (false, rest)
  match signed.snd.span (fun c => c != '.') with
  | (ip, []) => decimalOfParts signed.fst ip []
  | (ip, _point :: rest) =>
    if rest.contains '.' then Option.none
    else decimalOfParts signed.fst ip rest

/-- `Decimal(str(v))` on a loosely typed payload value: a numeric value
round-trips through its string form, a string value is parsed, and `None`
(whose string form is not numeric) raises. -/
def decimalOfPyVal : PyVal → Option ℚ
  | PyVal.vnum q => Option.some q
  | PyVal.vstr s => decimalOfString s
  | PyVal.vnone => Option.none

/-- `TransactionType(t)` succeeds exactly for the enum values 0..9
(`app/models/balance_transaction.py`). -/
def transactionTypeValid (t : Int) : Bool := 0 ≤ t && t ≤ 9

/-- The `balance_transactions` table row (`app/models/balance_transaction.py`),
with the columns set by `EngineManager.handle_transaction`;
`transaction_type` holds the enum's integer value. -/
structure BalanceTransaction where
  project_id : Int
  strategy_id : Option Int
  strategy_instance_id : Option String
  position_id : Option Int
  order_id : Option Int
  signal_id : Option Int
  executor_id : Option String
  asset_key : String
  transaction_type : Int
  amount : ℚ
  balance_before : ℚ
  balance_after : ℚ
  description : String
deriving Repr, DecidableEq

/-- The payload of a transaction event. The three balance fields are kept in
loose `PyVal` form because the source parses them with `Decimal(str(...))`;
the id fields are modelled already typed (their `int(...)` conversions are
not at issue in any claim). -/
structure TransactionData where
  type : Option Int := Option.none
  amount : Option PyVal := Option.none
  balance_before : Option PyVal := Option.none
  balance_after : Option PyVal := Option.none
  strategy_id : Option Int := Option.none
  strategy_instance_id : Option String := Option.none
  position_id : Option Int := Option.none
  order_id : Option Int := Option.none
  signal_id : Option Int := Option.none
  executor_id : Option String := Option.none
  asset_key : Option String := Option.none
  desc : Option String := Option.none
deriving Repr, DecidableEq

/-- `EngineManager.handle_transaction`: convert the enum and the three
balance fields (each defaulting to `0` when its key is missing), build the
row and append it to the ledger. Any conversion error (invalid enum value or
unparseable `Decimal` input) raises before `db.add`, aborting the whole
event, modelled as `Option.none`. -/
def handle_transaction (project_id : Int) (d : TransactionData)
    (ledger : List BalanceTransaction) : Option (List BalanceTransaction) :=
  if !(transactionTypeValid (d.type.getD 0)) then Option.none
  else
    match decimalOfPyVal (d.amount.getD (PyVal.vnum 0)),
        decimalOfPyVal (d.balance_before.getD (PyVal.vnum 0)),
        decimalOfPyVal (d.balance_after.getD (PyVal.vnum 0)) with
    | Option.some amount, Option.some balance_before, Option.some balance_after =>
      Option.some (ledger ++ [{
        project_id := project_id
        strategy_id := if truthyInt d.strategy_id then d.strategy_id else Option.none
        strategy_instance_id := if truthyStr d.strategy_instance_id
          then d.strategy_instance_id else Option.none
        position_id := if truthyInt d.position_id then d.position_id else Option.none
        order_id := if truthyInt d.order_id then d.order_id else Option.none
        signal_id := if truthyInt d.signal_id then d.signal_id else Option.none
        executor_id := if truthyStr d.executor_id then d.executor_id else Option.none
        asset_key := d.asset_key.getD ""
        transaction_type := d.type.getD 0
        amount := amount
        balance_before := balance_before
        balance_after := balance_after
        description := d.desc.getD "" }])
    | _, _, _ => Option.none

/-- An observable side effect of the registry / bootstrap code in
`EngineManager.add_client` and `EngineManager.remove_client`. -/
inductive Eff where
  | markInit (project_id : String)
  | clearInit (project_id : String)
  | startClient (project_id : String)
  | stopClient (project_id : String)
  | push (project_id : String) (action : String) (config : Nat)
deriving Repr, DecidableEq

/-- The in-memory registry state of `EngineManager`: `self.clients` (project
id to opaque client handle) and the key set of `self._initializing_clients`. -/
structure EngineState where
  clients : List (String × Nat)
  initializing : List String
deriving Repr, DecidableEq

/-- `self.clients.get(instance_id)`. -/
def lookupClient (clients : List (String × Nat)) (instance_id : String) : Option Nat :=
  (clients.find? (fun p => p.fst == instance_id)).map Prod.snd

/-- `self._initializing_clients[instance_id] = True` (a dict keyed by id). -/
def insertMark (marks : List String) (instance_id : String) : List String :=
  if marks.contains instance_id then marks else marks ++ [instance_id]

/-- `self._initializing_clients.pop(instance_id, None)`. -/
def removeMark (marks : List String) (instance_id : String) : List String :=
  marks.filter (fun x => x != instance_id)

/-- The project's enabled configuration rows, as returned by the four
`is_enabled=True` queries inside `add_client`; each config blob
(`dumps_map()`) is opaque. -/
structure ProjectConfigs where
  risk_policies : List Nat := []
  executors : List Nat := []
  data_sources : List Nat := []
  strategies : List Nat := []
deriving Repr, DecidableEq

/-- The bootstrap push sequence of `add_client`, in source order: risk
policies, then executors, then data sources, then strategies. -/
def bootstrapActions (cfg : ProjectConfigs) : List (String × Nat) :=
  cfg.risk_policies.map (fun c => ("add_position_policy", c))
    ++ cfg.executors.map (fun c => ("add_executor", c))
    ++ cfg.data_sources.map (fun c => ("add_data_source", c))
    ++ cfg.strategies.map (fun c => ("add_strategy", c))

/-- Run the bootstrap pushes one by one; `fails action config = true` models
`send_action` raising on that push, which aborts the remaining sequence.
Returns the attempted pushes and whether all of them succeeded. -/
def runPushes (instance_id : String) (fails : String → Nat → Bool) :
    List (String × Nat) → List Eff × Bool
  | [] => ([], true)
  | (action, config) :: rest =>
    if fails action config then ([Eff.push instance_id action config], false)
    else
      let r := runPushes instance_id fails rest
      (Eff.push instance_id action config :: r.1, r.2)

/-- Outcome of an async call: a returned value or a propagated exception. -/
inductive CallResult where
  | ok (handle : Nat)
  | error (msg : String)
deriving Repr, DecidableEq

/-- Result of one `add_client` call: the registry state when the call
returns, the trace of effects it performed, and its outcome (`CallResult.ok`
is the returned client handle, `CallResult.error` a propagated exception). -/
structure AddClientOutcome where
  state : EngineState
  trace : List Eff
  result : CallResult
deriving Repr, DecidableEq

/-- `EngineManager.add_client`: under the registry lock, return the existing
handle when present (idempotent); otherwise mark the id as initializing,
construct and start the client, record it in the registry, push the
bootstrap sequence, and — in a `finally` block that runs on success and on
exception alike — pop the initializing mark before returning. -/
def add_client (st : EngineState) (instance_id : String) (cfg : ProjectConfigs)
    (newHandle : Nat) (fails : String → Nat → Bool) : AddClientOutcome :=
  match lookupClient st.clients instance_id with
  | Option.some h => { state := st, trace := [], result := CallResult.ok h }
  | Option.none =>
    let st1 : EngineState := { st with initializing := insertMark st.initializing instance_id }
    let st2 : EngineState := { st1 with clients := st1.clients ++ [(instance_id, newHandle)] }
    let pushesRun := runPushes instance_id fails (bootstrapActions cfg)
    let finalState : EngineState :=
      { st2 with initializing := removeMark st2.initializing instance_id }
    { state := finalState
      trace := Eff.markInit instance_id :: Eff.startClient instance_id ::
        pushesRun.1 ++ [Eff.clearInit instance_id]
      result := if pushesRun.2 then CallResult.ok newHandle
        else CallResult.error "bootstrap push failed" }

/-- `EngineManager.remove_client`: return immediately (no registry change, no
stop) when the id is marked initializing; otherwise pop the handle and, when
one was present, stop it. -/
def remove_client (st : EngineState) (instance_id : String) : EngineState × List Eff :=
  if st.initializing.contains instance_id then (st, [])
  else
    match lookupClient st.clients instance_id with
    | Option.some _ =>
      ({ st with clients := st.clients.filter (fun p => p.fst != instance_id) },
        [Eff.stopClient instance_id])
    | Option.none => (st, [])

/-- Predicate picking the bootstrap pushes out of an effect trace. -/
def isPush : Eff → Bool
  | Eff.push _ _ _ => true
  | _ => false

/-- A push oracle under which every `send_action` succeeds. -/
def noFail : String → Nat → Bool := fun _ _ => false

/-- A stored open position with a non-empty `executor_sz` map, used as the
pre-state of concrete reconciliation runs. -/
def openPosA : Position :=
  { project_id := 1
    id := 9
    strategy_id := 3
    strategy_instance_id := "s1"
    symbol := "BTC"
    quote_currency := "USDT"
    ins_type := "swap"
    asset_type := "crypto"
    side := "long"
    cost_price := 100
    amount := 200
    ratio := 1
    max_sz := 2
    max_amount := 200
    executor_id := Option.none
    pnl := 0
    fee := 0
    friction := 0
    leverage := 1
    open_time := 0
    sz := 2
    executor_sz := [("execA", 2)]
    is_closed := false
    total_amount := 200
    total_sz := 2
    close_price := Option.none
    current_price := Option.none
    close_time := Option.none }

/-- A sparse `position-update` payload that carries only a pnl change and in
particular no `executor_sz` key. -/
def sparsePnlUpdate : PositionData := { position_id := 9, pnl := Option.some 5 }

/-- A stored position already marked closed. -/
def closedPos : Position := { openPosA with id := 7, is_closed := true }

/-- A `position-update` payload addressed to the closed position. -/
def updateForClosedPos : PositionData := { position_id := 7, pnl := Option.some 1 }

/-- A `position-update` payload that grows the executor map of `openPosA`;
it carries the `virtual_positions` key, so the update commits. -/
def growingUpdate : PositionData :=
  { position_id := 9, amount := Option.some 500,
    executor_sz := Option.some [("execA", 5)],
    virtual_positions := Option.some [] }

/-- A sparse `position-update` payload that carries the `virtual_positions`
key (so the update commits) but no `executor_sz` key. -/
def vposOnlyUpdate : PositionData :=
  { position_id := 9, virtual_positions := Option.some [] }

/-- The stored `signal`-type RiskLog for signal 5 under policy 2, with no
back-filled contributions yet. -/
def signalRiskLog : RiskLog :=
  { id := 10, project_id := 1, risk_type := "signal", signal_id := Option.some 5,
    risk_policy_id := Option.some 2, pnl := Option.none, extra_info := Option.none }

/-- First stored position reporting a virtual-position resolution. -/
def vposHolderA : Position := { openPosA with id := 101 }

/-- Second stored position reporting a virtual-position resolution. -/
def vposHolderB : Position := { openPosA with id := 102 }

/-- Resolution event for position 101: its virtual position for
(signal 5, policy 2) resolved with pnl 3.0. -/
def vposEventA : PositionData :=
  { position_id := 101
    virtual_positions := Option.some
      [{ signal_id := Option.some 5, policy_id := Option.some 2, pnl := 3, sz := 0 }] }

/-- Resolution event for position 102: its virtual position for
(signal 5, policy 2) resolved with pnl -1.5. -/
def vposEventB : PositionData :=
  { position_id := 102
    virtual_positions := Option.some
      [{ signal_id := Option.some 5, policy_id := Option.some 2, pnl := -(3 / 2), sz := 0 }] }

/-- Store contents after the first resolution event (the event commits, so
the default for the impossible abort case is never taken). -/
def afterFirstResolution : List Position × List RiskLog :=
  (handle_position_update 0 1 vposEventA [vposHolderA, vposHolderB] [signalRiskLog]).getD
    ([], [])

/-- Store contents after both resolution events. -/
def afterSecondResolution : List Position × List RiskLog :=
  (handle_position_update 0 1 vposEventB afterFirstResolution.1 afterFirstResolution.2).getD
    ([], [])

/-- An `order-updated` payload for order id 7. -/
def orderUpdateSeven : OrderData := { order_id := Option.some 7, strategy_id := 1, signal_id := 3 }

/-- An `execution-order-updated` payload for context id 7. -/
def execOrderUpdateSeven : ExecOrderData := { context_id := 7, actual_pnl := Option.some 4 }

/-- A stored order whose id (1) differs from 7. -/
def storedOrderOne : Order := convertOrderOne 0 1 { order_id := Option.some 1, strategy_id := 1, signal_id := 1 }

/-- A stored execution order whose id (1) differs from 7. -/
def storedExecOrderOne : ExecutionOrder := convert_exec_order 0 1 { context_id := 1 }

/-- A transaction payload whose `amount`, `balance_before` and `balance_after`
keys are all missing. -/
def txMissingAmounts : TransactionData := { type := Option.some 4, asset_key := Option.some "USDT" }

/-- A transaction payload with a malformed (non-numeric) `amount` value. -/
def txMalformedAmount : TransactionData :=
  { type := Option.some 4, amount := Option.some (PyVal.vstr "abc") }

/-- Project configuration with one enabled row of each kind. -/
def oneOfEachCfg : ProjectConfigs :=
  { risk_policies := [11], executors := [21], data_sources := [31], strategies := [41] }

/-- Project configuration with one enabled risk policy only. -/
def onePolicyCfg : ProjectConfigs := { risk_policies := [1] }

/-- A push oracle under which every `send_action` raises. -/
def failAll : String → Nat → Bool := fun _ _ => true

/-- Registry state holding project "42" both as a live client and as
initializing. -/
def initializingState : EngineState := { clients := [("42", 5)], initializing := ["42"] }

/-- What one asset contributes to `open_amount`: its `amount` when the value
is present and truthy, nothing otherwise. -/
def openAmountContribution (asset : ExecAsset) : ℚ :=
  if truthyQ asset.amount then asset.amount.getD 0 else 0

/-- What one asset contributes to `open_ratio`: its `ratio` when the value is
present and truthy, nothing otherwise. -/
def openRatioContribution (asset : ExecAsset) : ℚ :=
  if truthyQ asset.ratio then asset.ratio.getD 0 else 0

/-- The ledger row produced for `txMissingAmounts`: every numeric field falls
back to zero. -/
def txRowMissing : BalanceTransaction :=
  { project_id := 1, strategy_id := Option.none, strategy_instance_id := Option.none,
    position_id := Option.none, order_id := Option.none, signal_id := Option.none,
    executor_id := Option.none, asset_key := "USDT", transaction_type := 4,
    amount := 0, balance_before := 0, balance_after := 0, description := "" }

/-- An execution-order payload mixing open and non-open assets and truthy and
falsy amounts. -/
def mixedAssetsEvent : ExecOrderData :=
  { context_id := 3
    execution_assets :=
      [{ is_open := true, amount := Option.some 5, ratio := Option.some 0 },
       { is_open := true, amount := Option.none, ratio := Option.some 2 },
       { is_open := false, amount := Option.some 7, ratio := Option.some 1 }] }

/-- An execution-order payload none of whose assets is open. -/
def noOpenAssetsEvent : ExecOrderData :=
  { context_id := 4
    execution_assets := [{ is_open := false, amount := Option.some 7, ratio := Option.some 1 }] }

theorem update_position_project_id (now : ℚ) (ex : Position) (d : PositionData) :
    (update_position now ex d).row.project_id = ex.project_id := by
  unfold update_position
  dsimp only
  split <;> rfl

theorem update_position_id (now : ℚ) (ex : Position) (d : PositionData) :
    (update_position now ex d).row.id = ex.id := by
  unfold update_position
  dsimp only
  split <;> rfl

theorem update_position_max_sz (now : ℚ) (ex : Position) (d : PositionData) :
    (update_position now ex d).row.max_sz
      = max ex.max_sz (szFromExecutorSz d.executor_sz) := by
  unfold update_position
  dsimp only
  split <;> rfl

theorem update_position_max_amount (now : ℚ) (ex : Position) (d : PositionData) :
    (update_position now ex d).row.max_amount = max ex.max_amount (d.amount.getD 0) := by
  unfold update_position
  dsimp only
  split <;> rfl

theorem update_position_vpos (now : ℚ) (ex : Position) (d : PositionData) :
    (update_position now ex d).virtual_positions = d.virtual_positions := rfl

theorem hpu_closed_noop (now : ℚ) (project_id : Int) (d : PositionData)
    (positions : List Position) (riskLogs : List RiskLog) (ex : Position)
    (hfind : findPosition positions project_id d.position_id = Option.some ex)
    (hclosed : ex.is_closed = true) :
    handle_position_update now project_id d positions riskLogs
      = Option.some (positions, riskLogs) := by
  unfold handle_position_update
  rw [hfind]
  simp [hclosed]

theorem hpu_open_step (now : ℚ) (project_id : Int) (d : PositionData)
    (positions : List Position) (riskLogs : List RiskLog) (ex : Position)
    (hfind : findPosition positions project_id d.position_id = Option.some ex)
    (hopen : ex.is_closed = false) :
    handle_position_update now project_id d positions riskLogs
      = (update_risk_log_with_virtual_positions project_id
          (update_position now ex d) riskLogs).map
          (fun memLogs =>
            (updateFirst (positionKeyMatches project_id d.position_id)
              (fun _ => (update_position now ex d).row) positions,
             List.zipWith commitRiskLog riskLogs memLogs)) := by
  unfold handle_position_update
  rw [hfind]
  simp only [hopen, Bool.false_eq_true, if_false]
  cases update_risk_log_with_virtual_positions project_id
    (update_position now ex d) riskLogs <;> simp

theorem find?_updateFirst (p : α → Bool) (f : α → α) (xs : List α) (x : α)
    (hx : xs.find? p = Option.some x) (hf : p (f x) = true) :
    (updateFirst p f xs).find? p = Option.some (f x) := by
  induction xs with
  | nil => simp at hx
  | cons a rest ih =>
    by_cases h : p a
    · rw [List.find?_cons_of_pos _ h] at hx
      injection hx with hxa
      subst hxa
      unfold updateFirst
      rw [if_pos h, List.find?_cons_of_pos _ hf]
    · rw [List.find?_cons_of_neg _ h] at hx
      unfold updateFirst
      rw [if_neg h, List.find?_cons_of_neg _ h]
      exact ih hx

/-- C1 (amended): a position-update event stores a row only on the
sparse-update path for an open position, and only when the payload carries
the `virtual_positions` key: the creation path always raises `TypeError`
inside the `Position` constructor (no `virtual_positions` column) and stores
nothing, and an open-row update whose payload lacks `virtual_positions`
raises `AttributeError` at the risk-log back-fill and stores nothing. When
the update does commit, the row stored for the event's key is exactly the
payload-updated row, whose `sz` equals the sum of the values of the
payload's `executor_sz` map (empty when the key is absent) and whose closed
flag is true exactly when that `sz` is ≤ 0 and the sum of the `sz` fields of
the payload's virtual positions is ≤ 0. (The stored-map form of the original
claim fails on committed updates that omit `executor_sz`; see the
counterexample.) -/
theorem position_update_payload_invariant (now : ℚ) (project_id : Int)
    (d : PositionData) (positions : List Position) (riskLogs : List RiskLog)
    (ex : Position)
    (hfind : findPosition positions project_id d.position_id = Option.some ex)
    (hopen : ex.is_closed = false) :
    (convert_position now project_id d = Option.none) ∧
    (d.virtual_positions = Option.none →
      handle_position_update now project_id d positions riskLogs = Option.none) ∧
    (∀ res, handle_position_update now project_id d positions riskLogs = Option.some res →
      findPosition res.1 project_id d.position_id
        = Option.some (update_position now ex d).row) ∧
    ((update_position now ex d).row.sz = szFromExecutorSz d.executor_sz ∧
      ((update_position now ex d).row.is_closed = true ↔
        szFromExecutorSz d.executor_sz ≤ 0 ∧
          vszFromVirtualPositions d.virtual_positions ≤ 0)) := by
  have hex : positionKeyMatches project_id d.position_id ex = true :=
    List.find?_some hfind
  have hupd : positionKeyMatches project_id d.position_id
      (update_position now ex d).row = true := by
    unfold positionKeyMatches at hex ⊢
    rw [update_position_project_id, update_position_id]
    exact hex
  refine ⟨rfl, ?_, ?_, ?_, ?_⟩
  · intro hnone
    rw [hpu_open_step now project_id d positions riskLogs ex hfind hopen]
    unfold update_risk_log_with_virtual_positions
    rw [update_position_vpos, hnone]
    rfl
  · intro res hres
    rw [hpu_open_step now project_id d positions riskLogs ex hfind hopen] at hres
    cases hmem : update_risk_log_with_virtual_positions project_id
        (update_position now ex d) riskLogs with
    | none =>
      rw [hmem] at hres
      simp at hres
    | some memLogs =>
      rw [hmem] at hres
      simp only [Option.map_some'] at hres
      injection hres with hres
      rw [← hres]
      exact find?_updateFirst _ _ positions ex hfind hupd
  · unfold update_position
    dsimp only
    split <;> rfl
  · unfold update_position
    dsimp only
    split
    · simp_all
    · simp_all

theorem position_update_payload_invariant_witness :
    convert_position 0 1 sparsePnlUpdate = Option.none ∧
      handle_position_update 0 1 sparsePnlUpdate [openPosA] [] = Option.none ∧
      (update_position 0 openPosA sparsePnlUpdate).row.sz
        = szFromExecutorSz sparsePnlUpdate.executor_sz := by
  have h := position_update_payload_invariant 0 1 sparsePnlUpdate [openPosA] []
    openPosA (by decide) rfl
  exact ⟨h.1, h.2.1 rfl, h.2.2.2.1⟩

/-- C1 counterexample: a committed sparse update (the payload carries
`virtual_positions = []` but no `executor_sz` key) recomputes `sz` (to 0)
from the absent payload key while the stored map keeps its old entries, so
after the commit the stored row violates `sz = sum(executor_sz.values())`
(it also gets marked closed although the stored map still sums to 2). -/
theorem sparse_update_breaks_stored_sz_invariant :
    ((handle_position_update 0 1 vposOnlyUpdate [openPosA] []).getD ([], [])).1.all
      (fun p => p.sz == StrMap.valuesSum p.executor_sz) = false := by
  norm_num [handle_position_update, findPosition, positionKeyMatches, openPosA,
    vposOnlyUpdate, update_position, szFromExecutorSz, StrMap.valuesSum,
    update_risk_log_with_virtual_positions, updateFirst, List.find?_cons,
    vszFromVirtualPositions, beq_iff_eq]

/-- C3: a position-update event addressed to a stored position whose
`is_closed` flag is true is ignored entirely — the handler returns cleanly
before any mutation, so the position store and the risk-log store both come
back unchanged, no field changes, and in particular `is_closed` never
reverts to false. -/
theorem closed_position_update_is_ignored (now : ℚ) (project_id : Int)
    (d : PositionData) (positions : List Position) (riskLogs : List RiskLog)
    (ex : Position)
    (hfind : findPosition positions project_id d.position_id = Option.some ex)
    (hclosed : ex.is_closed = true) :
    handle_position_update now project_id d positions riskLogs
      = Option.some (positions, riskLogs) :=
  hpu_closed_noop now project_id d positions riskLogs ex hfind hclosed

theorem closed_position_update_is_ignored_witness :
    handle_position_update 0 1 updateForClosedPos [closedPos] []
      = Option.some ([closedPos], []) :=
  closed_position_update_is_ignored 0 1 updateForClosedPos [closedPos] [] closedPos
    (by decide) rfl

/-- C4: whenever reconciling a position-update event for an existing stored
position commits, the stored `max_sz` and `max_amount` never decrease (each
is recomputed with `max`, a closed row is returned untouched, and an aborted
event stores nothing at all), so the maxima are monotone across any
sequence of updates. -/
theorem position_maxima_monotonic (now : ℚ) (project_id : Int) (d : PositionData)
    (positions : List Position) (riskLogs : List RiskLog) (ex post : Position)
    (res : List Position × List RiskLog)
    (hfind : findPosition positions project_id d.position_id = Option.some ex)
    (hres : handle_position_update now project_id d positions riskLogs = Option.some res)
    (hpost : findPosition res.1 project_id d.position_id = Option.some post) :
    ex.max_sz ≤ post.max_sz ∧ ex.max_amount ≤ post.max_amount := by
  by_cases hc : ex.is_closed = true
  · rw [hpu_closed_noop now project_id d positions riskLogs ex hfind hc] at hres
    injection hres with hres
    rw [← hres] at hpost
    rw [hfind] at hpost
    injection hpost with h
    subst h
    exact ⟨le_refl _, le_refl _⟩
  · rw [hpu_open_step now project_id d positions riskLogs ex hfind
      (Bool.not_eq_true _ ▸ hc)] at hres
    cases hmem : update_risk_log_with_virtual_positions project_id
        (update_position now ex d) riskLogs with
    | none =>
      rw [hmem] at hres
      simp at hres
    | some memLogs =>
      rw [hmem] at hres
      simp only [Option.map_some'] at hres
      injection hres with hres
      rw [← hres] at hpost
      have hex : positionKeyMatches project_id d.position_id ex = true :=
        List.find?_some hfind
      have hupd : positionKeyMatches project_id d.position_id
          (update_position now ex d).row = true := by
        unfold positionKeyMatches at hex ⊢
        rw [update_position_project_id, update_position_id]
        exact hex
      unfold findPosition at hpost
      rw [find?_updateFirst _ _ positions ex hfind hupd] at hpost
      injection hpost with h
      subst h
      constructor
      · rw [update_position_max_sz]
        exact le_max_left _ _
      · rw [update_position_max_amount]
        exact le_max_left _ _

theorem position_maxima_monotonic_witness :
    openPosA.max_sz ≤ (update_position 0 openPosA growingUpdate).row.max_sz ∧
      openPosA.max_amount ≤ (update_position 0 openPosA growingUpdate).row.max_amount :=
  position_maxima_monotonic 0 1 growingUpdate [openPosA] [] openPosA
    (update_position 0 openPosA growingUpdate).row
    (updateFirst (positionKeyMatches 1 growingUpdate.position_id)
      (fun _ => (update_position 0 openPosA growingUpdate).row) [openPosA], [])
    (by decide)
    (by norm_num [handle_position_update, findPosition, positionKeyMatches, openPosA,
      growingUpdate, update_position, update_risk_log_with_virtual_positions,
      szFromExecutorSz, StrMap.valuesSum, updateFirst, List.find?_cons,
      vszFromVirtualPositions, beq_iff_eq])
    (by norm_num [findPosition, positionKeyMatches, openPosA, growingUpdate,
      update_position, szFromExecutorSz, StrMap.valuesSum, updateFirst,
      List.find?_cons, vszFromVirtualPositions, beq_iff_eq])

theorem int_string_101 : toString (101 : Int) = "101" := rfl

theorem int_string_102 : toString (102 : Int) = "102" := rfl

theorem string_101_ne_102 : ("101" : String) ≠ "102" := by decide

/-- C5: evaluating the reconciler at the claim's own scenario exposes a
persistence bug: after the two resolutions the durable RiskLog keeps only
the first back-fill in `extra_info` (the second back-fill mutates the loaded
dict in place, which the plain JSON column's change detection misses, so it
is dropped from the UPDATE) while `pnl` is recomputed from the in-memory
dict. The stored row ends with extra_info holding the single entry
("101", 3) and pnl = 1.5 — not one entry per position id, and pnl differs
from the sum over the stored extra_info values. -/
theorem risk_log_second_backfill_lost :
    afterSecondResolution.2 = [{ signalRiskLog with
      extra_info := Option.some [("101", 3)],
      pnl := Option.some (3 / 2) }] := by
  norm_num [afterSecondResolution, afterFirstResolution, handle_position_update,
    findPosition, positionKeyMatches, vposHolderA, vposHolderB, openPosA,
    vposEventA, vposEventB, signalRiskLog, update_position, szFromExecutorSz,
    vszFromVirtualPositions, StrMap.valuesSum, StrMap.setKey,
    update_risk_log_with_virtual_positions, applyVirtualPosition, riskLogMatches,
    updateFirst, List.find?_cons, truthyInt, int_string_101, int_string_102,
    string_101_ne_102, commitRiskLog, truthyDict, beq_iff_eq]

/-- C2 (corrected): an `order-updated` event whose order id matches no stored
Order row, and an `execution-order-updated` event whose context id matches no
stored ExecutionOrder row, are both dropped — the stores come back unchanged,
because neither handler has an insert branch for the absent case. (The
original claim of an update-as-insert fallback fails; see the
counterexample.) -/
theorem updated_event_without_row_is_dropped (now : ℚ) (project_id : Int)
    (d : OrderData) (store : List Order) (e : ExecOrderData)
    (estore : List ExecutionOrder)
    (h1 : store.find? (fun ex => ex.id == d.order_id.getD 0) = Option.none)
    (h2 : estore.find? (fun x => x.id == e.context_id) = Option.none) :
    handle_order_updated now project_id d store = store ∧
      handle_exec_order_updated project_id e estore = estore := by
  constructor
  · unfold handle_order_updated convert_order
    simp only [List.map_cons, List.map_nil, List.foldl_cons, List.foldl_nil]
    have hid : (convertOrderOne now project_id d).id = d.order_id.getD 0 := rfl
    rw [hid, h1]
    simp
  · unfold handle_exec_order_updated
    rw [h2]
    simp

theorem updated_event_without_row_is_dropped_witness :
    handle_order_updated 0 1 orderUpdateSeven [storedOrderOne] = [storedOrderOne] ∧
      handle_exec_order_updated 1 execOrderUpdateSeven [storedExecOrderOne]
        = [storedExecOrderOne] :=
  updated_event_without_row_is_dropped 0 1 orderUpdateSeven [storedOrderOne]
    execOrderUpdateSeven [storedExecOrderOne] (by decide) (by decide)

/-- C2 counterexample: delivering `order-updated(id=7)` (resp.
`execution-order-updated(context_id=7)`) against an empty store leaves the
store empty — no row with id 7 is created, contradicting the claimed
update-as-insert fallback. -/
theorem update_before_create_leaves_no_row :
    handle_order_updated 0 1 orderUpdateSeven [] = [] ∧
      handle_exec_order_updated 1 execOrderUpdateSeven [] = [] ∧
      ((handle_order_updated 0 1 orderUpdateSeven []).any (fun o => o.id == 7)) = false := by
  refine ⟨rfl, rfl, rfl⟩

/-- C9 (amended): a successfully handled transaction event appends exactly
one new row to the ledger (no existing row is mutated), and each of
`amount`, `balance_before`, `balance_after` falls back to zero when its key
is missing from the payload. (The original claim also promised a zero
fallback on malformed values; in fact `Decimal(str(...))` raises there and
the whole event is aborted — see the counterexample.) -/
theorem transaction_insert_append_only (project_id : Int) (d : TransactionData)
    (ledger res : List BalanceTransaction)
    (h : handle_transaction project_id d ledger = Option.some res) :
    ∃ row, res = ledger ++ [row] ∧
      (d.amount = Option.none → row.amount = 0) ∧
      (d.balance_before = Option.none → row.balance_before = 0) ∧
      (d.balance_after = Option.none → row.balance_after = 0) := by
  unfold handle_transaction at h
  split at h
  · exact absurd h (by simp)
  · split at h
    case _ amount balance_before balance_after heqa heqb heqc =>
      injection h with h
      refine ⟨_, h.symm, ?_, ?_, ?_⟩
      · intro hnone
        rw [hnone] at heqa
        simp [decimalOfPyVal] at heqa
        simp [heqa]
      · intro hnone
        rw [hnone] at heqb
        simp [decimalOfPyVal] at heqb
        simp [heqb]
      · intro hnone
        rw [hnone] at heqc
        simp [decimalOfPyVal] at heqc
        simp [heqc]
    case _ => exact absurd h (by simp)

theorem transaction_insert_append_only_witness :
    ∃ row, [txRowMissing] = [] ++ [row] ∧
      (txMissingAmounts.amount = Option.none → row.amount = 0) ∧
      (txMissingAmounts.balance_before = Option.none → row.balance_before = 0) ∧
      (txMissingAmounts.balance_after = Option.none → row.balance_after = 0) :=
  transaction_insert_append_only 1 txMissingAmounts [] [txRowMissing] rfl

/-- C9 counterexample: a transaction event whose `amount` is the non-numeric
string "abc" is aborted entirely (`Decimal` raises `InvalidOperation`): no
row is inserted and the field does not fall back to zero. -/
theorem malformed_amount_aborts_transaction :
    handle_transaction 1 txMalformedAmount [] = Option.none := rfl

theorem foldl_openTotalsStep (assets : List ExecAsset) (a b : ℚ) :
    assets.foldl openTotalsStep (a, b)
      = (a + ((assets.filter ExecAsset.is_open).map openAmountContribution).sum,
         b + ((assets.filter ExecAsset.is_open).map openRatioContribution).sum) := by
  induction assets generalizing a b with
  | nil => simp
  | cons x rest ih =>
    by_cases hx : x.is_open
    · have hstep : openTotalsStep (a, b) x
          = (a + openAmountContribution x, b + openRatioContribution x) := by
        unfold openTotalsStep openAmountContribution openRatioContribution
        rw [if_pos hx]
        by_cases ha : truthyQ x.amount = true <;> by_cases hr : truthyQ x.ratio = true <;>
          simp [ha, hr]
      rw [List.foldl_cons, hstep, ih, List.filter_cons_of_pos hx]
      simp only [List.map_cons, List.sum_cons]
      rw [add_assoc, add_assoc]
    · have hstep : openTotalsStep (a, b) x = (a, b) := by
        unfold openTotalsStep
        rw [if_neg hx]
      rw [List.foldl_cons, hstep, ih,
        List.filter_cons_of_neg (by simpa using hx)]

/-- C10: for every execution-order-created event, the stored row's
`open_amount` is the sum, over exactly the assets whose `is_open` flag is
set, of their `amount` values (an absent or falsy `amount` contributes
nothing), `open_ratio` is the corresponding sum of their `ratio` values, and
both are 0 when no asset is open. -/
theorem exec_order_open_totals (now : ℚ) (project_id : Int) (d : ExecOrderData) :
    (convert_exec_order now project_id d).open_amount
        = ((d.execution_assets.filter ExecAsset.is_open).map openAmountContribution).sum ∧
    (convert_exec_order now project_id d).open_ratio
        = ((d.execution_assets.filter ExecAsset.is_open).map openRatioContribution).sum ∧
    (d.execution_assets.all (fun a => !a.is_open) = true →
      (convert_exec_order now project_id d).open_amount = 0 ∧
      (convert_exec_order now project_id d).open_ratio = 0) := by
  have h1 : (convert_exec_order now project_id d).open_amount
      = (openTotals d.execution_assets).1 := rfl
  have h2 : (convert_exec_order now project_id d).open_ratio
      = (openTotals d.execution_assets).2 := rfl
  have h := foldl_openTotalsStep d.execution_assets 0 0
  have ha : (convert_exec_order now project_id d).open_amount
      = ((d.execution_assets.filter ExecAsset.is_open).map openAmountContribution).sum := by
    rw [h1]
    unfold openTotals
    rw [h]
    simp
  have hr : (convert_exec_order now project_id d).open_ratio
      = ((d.execution_assets.filter ExecAsset.is_open).map openRatioContribution).sum := by
    rw [h2]
    unfold openTotals
    rw [h]
    simp
  refine ⟨ha, hr, ?_⟩
  intro hall
  have hfilter : d.execution_assets.filter ExecAsset.is_open = [] := by
    rw [List.filter_eq_nil_iff]
    intro a hmem
    have := List.all_eq_true.mp hall a hmem
    simpa using this
  rw [ha, hr, hfilter]
  simp

theorem exec_order_open_totals_witness :
    (convert_exec_order 0 1 noOpenAssetsEvent).open_amount = 0 ∧
      (convert_exec_order 0 1 noOpenAssetsEvent).open_ratio = 0 :=
  (exec_order_open_totals 0 1 noOpenAssetsEvent).2.2 (by decide)

theorem runPushes_noFail (instance_id : String) (l : List (String × Nat)) :
    runPushes instance_id noFail l
      = (l.map (fun p => Eff.push instance_id p.fst p.snd), true) := by
  induction l with
  | nil => rfl
  | cons x rest ih =>
    cases x with
    | mk action config => simp [runPushes, noFail, ih]

theorem filter_isPush_map_one (instance_id action : String) (l : List Nat) :
    (l.map (fun c => Eff.push instance_id action c)).filter isPush
      = l.map (fun c => Eff.push instance_id action c) := by
  induction l with
  | nil => rfl
  | cons x rest ih => simp [isPush, ih]

/-- C6: when `add_client` actually constructs a client (the project is not
yet registered) and every push succeeds, the bootstrap pushes it issues are
exactly: every enabled risk policy (`add_position_policy`), then every
enabled executor (`add_executor`), then every enabled data source
(`add_data_source`), then every enabled strategy (`add_strategy`), in that
order; with zero enabled items of all four kinds no push appears in the
trace at all and the new client handle is returned. -/
theorem add_client_bootstrap_order (st : EngineState) (instance_id : String)
    (cfg : ProjectConfigs) (newHandle : Nat)
    (habsent : lookupClient st.clients instance_id = Option.none) :
    ((add_client st instance_id cfg newHandle noFail).trace.filter isPush
      = cfg.risk_policies.map (fun c => Eff.push instance_id "add_position_policy" c)
        ++ cfg.executors.map (fun c => Eff.push instance_id "add_executor" c)
        ++ cfg.data_sources.map (fun c => Eff.push instance_id "add_data_source" c)
        ++ cfg.strategies.map (fun c => Eff.push instance_id "add_strategy" c)) ∧
    ((add_client st instance_id cfg newHandle noFail).result = CallResult.ok newHandle) ∧
    (cfg.risk_policies = [] → cfg.executors = [] → cfg.data_sources = [] →
      cfg.strategies = [] →
      (add_client st instance_id cfg newHandle noFail).trace.filter isPush = []) := by
  unfold add_client
  rw [habsent]
  refine ⟨?_, ?_, ?_⟩
  · simp only [runPushes_noFail, bootstrapActions, List.map_append, List.map_map,
      Function.comp_def, List.filter_cons, List.filter_append, isPush]
    simp [isPush, filter_isPush_map_one]
  · simp [runPushes_noFail]
  · intro hp he hd hs
    simp only [runPushes_noFail, bootstrapActions, hp, he, hd, hs]
    simp [isPush]

theorem add_client_bootstrap_order_witness :
    ((add_client { clients := [], initializing := [] } "42" oneOfEachCfg 5 noFail).trace.filter
        isPush
      = oneOfEachCfg.risk_policies.map (fun c => Eff.push "42" "add_position_policy" c)
        ++ oneOfEachCfg.executors.map (fun c => Eff.push "42" "add_executor" c)
        ++ oneOfEachCfg.data_sources.map (fun c => Eff.push "42" "add_data_source" c)
        ++ oneOfEachCfg.strategies.map (fun c => Eff.push "42" "add_strategy" c)) ∧
    ((add_client { clients := [], initializing := [] } "42" oneOfEachCfg 5 noFail).result
      = CallResult.ok 5) ∧
    (oneOfEachCfg.risk_policies = [] → oneOfEachCfg.executors = [] →
      oneOfEachCfg.data_sources = [] → oneOfEachCfg.strategies = [] →
      (add_client { clients := [], initializing := [] } "42" oneOfEachCfg 5 noFail).trace.filter
        isPush = []) :=
  add_client_bootstrap_order { clients := [], initializing := [] } "42" oneOfEachCfg 5 rfl

theorem contains_removeMark (marks : List String) (instance_id : String) :
    (removeMark marks instance_id).contains instance_id = false := by
  induction marks with
  | nil => rfl
  | cons x rest ih =>
    unfold removeMark at ih ⊢
    rw [List.filter_cons]
    by_cases hx : x = instance_id
    · rw [if_neg (by simp [hx])]
      exact ih
    · rw [if_pos (by simpa using hx)]
      rw [List.contains_cons]
      have h1 : (instance_id == x) = false := by
        simp only [beq_eq_false_iff_ne, ne_eq]
        exact fun h => hx h.symm
      rw [h1, ih]
      rfl

/-- C7 (amended): `add_client` marks the project id as initializing before it
constructs and starts the client, and the mark is cleared when the call
returns — on success and on bootstrap-push failure alike, because the
source pops it in a `finally` block. (The original claim that the mark
survives a failed push is refuted by the counterexample.) -/
theorem add_client_initializing_mark_lifecycle (st : EngineState) (instance_id : String)
    (cfg : ProjectConfigs) (newHandle : Nat) (fails : String → Nat → Bool)
    (habsent : lookupClient st.clients instance_id = Option.none) :
    ((add_client st instance_id cfg newHandle fails).trace.take 2
        = [Eff.markInit instance_id, Eff.startClient instance_id]) ∧
    ((add_client st instance_id cfg newHandle fails).state.initializing.contains instance_id
        = false) := by
  unfold add_client
  rw [habsent]
  exact ⟨rfl, contains_removeMark _ _⟩

theorem add_client_initializing_mark_lifecycle_witness :
    ((add_client { clients := [], initializing := [] } "42" onePolicyCfg 5 failAll).trace.take 2
        = [Eff.markInit "42", Eff.startClient "42"]) ∧
    (((add_client { clients := [], initializing := [] } "42" onePolicyCfg 5
        failAll).state.initializing.contains "42") = false) :=
  add_client_initializing_mark_lifecycle { clients := [], initializing := [] } "42"
    onePolicyCfg 5 failAll rfl

/-- C7 counterexample: with one enabled risk policy whose bootstrap push
raises, `add_client` propagates the failure yet its `finally` block has
already removed the initializing mark — the mark does not remain set. -/
theorem failed_push_still_clears_initializing_mark :
    ((add_client { clients := [], initializing := [] } "42" onePolicyCfg 5 failAll).result
        = CallResult.error "bootstrap push failed") ∧
    ((add_client { clients := [], initializing := [] } "42" onePolicyCfg 5
        failAll).state.initializing = []) := by decide

/-- C8: `remove_client` invoked while the project id is marked initializing
returns without touching the state and without stopping anything: the
registry (and in particular the project's handle, if registered) is exactly
as before and no stop effect is emitted. -/
theorem remove_client_skipped_while_initializing (st : EngineState) (instance_id : String)
    (hinit : st.initializing.contains instance_id = true) :
    remove_client st instance_id = (st, []) ∧
      lookupClient (remove_client st instance_id).1.clients instance_id
        = lookupClient st.clients instance_id := by
  have h : remove_client st instance_id = (st, []) := by
    unfold remove_client
    rw [hinit]
    simp
  exact ⟨h, by rw [h]⟩

theorem remove_client_skipped_while_initializing_witness :
    remove_client initializingState "42" = (initializingState, []) ∧
      lookupClient (remove_client initializingState "42").1.clients "42"
        = lookupClient initializingState.clients "42" :=
  remove_client_skipped_while_initializing initializingState "42" rfl
